import Mathlib

/-!
Verification development for the makquiz backend (FastAPI + Beanie/MongoDB).

The definitions below are a shallow embedding of the scheduling, deck
aggregation, invitation and live-session code found in
`app/routes/decks.py`, `app/routes/teacher.py`, `app/routes/live.py`
and the data model `app/models.py`.  Python ints are modelled as `Int`,
floats as `Rat` (the SM-2 formulas are translated symbolically),
datetimes as abstract `Int` instants, and Mongo documents as Lean
structures; route handlers become pure functions returning `Except`
for their HTTP error paths.
-/

set_option maxHeartbeats 1000000

/-- Error kinds raised by the route handlers (HTTP status codes). -/
inductive ApiErr where
  | notFound
  | badRequest
  | forbidden
deriving DecidableEq, Repr

/-- Python `round` (round-half-to-even, as used by `round(interval * ease_factor)`
in `answer_card`), modelled on the rationals. -/
def pyRound (x : ℚ) : ℤ :=
  let f : ℤ := ⌊x⌋
  let r : ℚ := x - f
  if r < 1/2 then f
  else if 1/2 < r then f + 1
  else if f % 2 = 0 then f else f + 1

/-- The scheduling-relevant fields of `ContentItem` (`app/models.py`).
Quiz/flashcard text fields are omitted: `answer_card` and the due-count
queries never read them. -/
structure ContentItem where
  is_new : Bool
  is_learned : Bool
  repetitions : ℤ
  interval : ℤ
  ease_factor : ℚ
  times_reviewed : ℤ
  times_correct : ℤ
  times_incorrect : ℤ
  difficulty : ℚ
  last_review : Option ℤ
  next_review : Option ℤ
  unlock_date : ℤ
deriving DecidableEq, Repr

/-- `ContentItem` field defaults from `app/models.py`. -/
def ContentItem.init : ContentItem :=
  { is_new := true
    is_learned := false
    repetitions := 0
    interval := 0
    ease_factor := 5/2
    times_reviewed := 0
    times_correct := 0
    times_incorrect := 0
    difficulty := 0
    last_review := none
    next_review := none
    unlock_date := 0 }

/-- The deck fields read by the scheduler and aggregators
(`learning_mode` is all `answer_card` and `get_deck` consult). -/
structure Deck where
  learning_mode : String
deriving DecidableEq, Repr

/-- The pure SM-2 update performed by `answer_card`
(`app/routes/decks.py`, lines 691-726) on the card it fetched, given
the owning deck's `learning_mode`, the submitted `quality` and the
current instant `now`.  The branch structure, the order of the field
updates (interval before repetitions before ease factor; the final
block after either branch) and the trailing difficulty guard mirror
the Python source line by line. -/
def answer_card (learning_mode : String) (card : ContentItem) (quality : ℤ) (now : ℤ) :
    ContentItem :=
  let card :=
    if 3 ≤ quality then
      let interval : ℤ :=
        if card.repetitions = 0 then 1
        else if card.repetitions = 1 then 6
        else pyRound ((card.interval : ℚ) * card.ease_factor)
      let repetitions := card.repetitions + 1
      let ease_factor :=
        max (13/10)
          (card.ease_factor +
            (1/10 - ((5 - quality : ℤ) : ℚ) * (8/100 + ((5 - quality : ℤ) : ℚ) * (2/100))))
      let times_correct := card.times_correct + 1
      let is_learned :=
        if learning_mode = "all_at_once" then true
        else if 3 ≤ repetitions ∧ 7 ≤ interval then true
        else card.is_learned
      { card with
          interval := interval
          repetitions := repetitions
          ease_factor := ease_factor
          times_correct := times_correct
          is_learned := is_learned }
    else
      { card with
          repetitions := 0
          interval := 1
          ease_factor := max (13/10) (card.ease_factor - 2/10)
          times_incorrect := card.times_incorrect + 1
          is_learned := false }
  let card :=
    { card with
        is_new := false
        times_reviewed := card.times_reviewed + 1
        last_review := some now
        next_review := some (now + card.interval) }
  if 0 < card.times_reviewed then
    { card with difficulty := 1 - (card.times_correct : ℚ) / (card.times_reviewed : ℚ) }
  else card

/-- The `answer_card` route handler including its lookup error paths
(`app/routes/decks.py`, lines 676-689): missing card or missing deck
yield 404; otherwise the SM-2 update is applied unconditionally — the
handler performs no range check on `quality`. -/
def answer_card_route (card : Option ContentItem) (deck : Option Deck) (quality : ℤ)
    (now : ℤ) : Except ApiErr ContentItem :=
  match card with
  | none => .error .notFound
  | some card =>
    match deck with
    | none => .error .notFound
    | some deck => .ok (answer_card deck.learning_mode card quality now)

/-- Count of items in a deck satisfying a Mongo-style predicate
(`ContentItem.find(...).count()`). -/
def countItems (items : List ContentItem) (p : ContentItem → Bool) : ℕ :=
  (items.filter p).length

/-- The Mongo filter `ContentItem.next_review <= now`: a `$lte` date
comparison never matches a document whose `next_review` is null. -/
def nextReviewDue (c : ContentItem) (now : ℤ) : Bool :=
  match c.next_review with
  | none => false
  | some t => decide (t ≤ now)

/-- Due count computed by `get_my_decks` (`app/routes/decks.py`, lines
277-290): new cards past their unlock date plus non-new cards past
their next review — no `is_learned` filter on the second count. -/
def cards_due_my (items : List ContentItem) (today : ℤ) : ℕ :=
  countItems items (fun c => c.is_new && decide (c.unlock_date ≤ today)) +
  countItems items (fun c => !c.is_new && nextReviewDue c today)

/-- Due count computed by `get_my_teachers_decks` (`app/routes/teacher.py`,
lines 342-354): the same two counts as `get_my_decks`. -/
def cards_due_teacher (items : List ContentItem) (today : ℤ) : ℕ :=
  countItems items (fun c => c.is_new && decide (c.unlock_date ≤ today)) +
  countItems items (fun c => !c.is_new && nextReviewDue c today)

/-- Due count computed by `get_deck` (`app/routes/decks.py`, lines
503-508): items past their unlock date that are not learned. -/
def cards_due_detail (items : List ContentItem) (now : ℤ) : ℕ :=
  countItems items (fun c => decide (c.unlock_date ≤ now) && !c.is_learned)

/-- Modelled from the spec's words (§4.2), for comparison with the three
source-level due counts: the number of items that are
(`isNew && unlockDate ≤ now`) OR (`!isNew && !isLearned && nextReview ≤ now`). -/
def due_spec (items : List ContentItem) (now : ℤ) : ℕ :=
  countItems items (fun c =>
    (c.is_new && decide (c.unlock_date ≤ now)) ||
    (!c.is_new && !c.is_learned && nextReviewDue c now))

/-- Deck status computed by `get_my_decks` (`app/routes/decks.py`, lines
292-304): the if/elif chain over the snapshot counts, with `"active"`
as the initial default. -/
def deck_status_my (total learned cards_due : ℕ) : String :=
  if total = 0 then "empty"
  else if learned = total ∧ 0 < total then "mastered"
  else if cards_due = 0 ∧ 0 < learned then "done_for_today"
  else if 0 < cards_due then "active"
  else "active"

/-- Deck status computed by `get_my_teachers_decks`
(`app/routes/teacher.py`, lines 367-379): the same chain as
`get_my_decks`. -/
def deck_status_teacher (total learned cards_due : ℕ) : String :=
  if total = 0 then "empty"
  else if learned = total ∧ 0 < total then "mastered"
  else if cards_due = 0 ∧ 0 < learned then "done_for_today"
  else if 0 < cards_due then "active"
  else "active"

/-- Deck status computed by `get_deck` (`app/routes/decks.py`, lines
510-517): `done_for_today` is gated on the deck's `learning_mode`
being `"spaced"` rather than on `learned > 0`. -/
def deck_status_detail (learning_mode : String) (total learned due : ℕ) : String :=
  if total = 0 then "empty"
  else if learned = total then "mastered"
  else if due = 0 ∧ learning_mode = "spaced" then "done_for_today"
  else "active"

/-- Modelled from the spec's words (§4.2 `ComputeStatus` rule), for
comparison with the source-level status computations: evaluated in
order, `total==0 → empty`; `learned==total && total>0 → mastered`;
`due==0 && learned>0 → done_for_today`; `due>0 → active`; else
`active`. -/
def compute_status_spec (total learned due : ℕ) : String :=
  if total = 0 then "empty"
  else if learned = total ∧ 0 < total then "mastered"
  else if due = 0 ∧ 0 < learned then "done_for_today"
  else if 0 < due then "active"
  else "active"

/-- Replace the first occurrence of `old` in a list with `new`: the
effect of `document.save()` on the collection the document was fetched
from. -/
def saveFirst {α : Type} [DecidableEq α] (xs : List α) (old new : α) : List α :=
  match xs with
  | [] => []
  | x :: rest => if x = old then new :: rest else x :: saveFirst rest old new

/-- The invitation fields read and written by the teacher routes
(`DeckInvitation` in `app/models.py`). -/
structure DeckInvitation where
  deck_id : ℕ
  teacher_id : ℕ
  code : String
  uses_count : ℤ
  max_uses : Option ℤ
  joined_students : List ℕ
  is_active : Bool
  expires_at : Option ℤ
deriving DecidableEq, Repr

/-- The access-record fields created by `join_deck`
(`StudentDeckAccess` in `app/models.py`; progress fields take their
defaults on creation and are not read by the routes modelled here). -/
structure StudentDeckAccess where
  student_id : ℕ
  deck_id : ℕ
  teacher_id : ℕ
  invitation_code : String
deriving DecidableEq, Repr

/-- The two Mongo collections `join_deck` reads and writes. -/
structure TeacherStore where
  invitations : List DeckInvitation
  accesses : List StudentDeckAccess
deriving DecidableEq, Repr

/-- The response body of `join_deck`, restricted to the fields the
claims are about. -/
structure JoinDeckResponse where
  deck_id : ℕ
  already_joined : Bool
deriving DecidableEq, Repr

/-- `invitation.expires_at and invitation.expires_at < datetime.now()`
(`app/routes/teacher.py`, line 271): a set `expires_at` (datetimes are
always truthy) strictly in the past. -/
def invitationExpired (inv : DeckInvitation) (now : ℤ) : Bool :=
  match inv.expires_at with
  | none => false
  | some e => decide (e < now)

/-- `invitation.max_uses and invitation.uses_count >= invitation.max_uses`
(`app/routes/teacher.py`, line 275): `max_uses` of `None` — or `0`,
which is falsy in Python — disables the limit check. -/
def invitationLimitReached (inv : DeckInvitation) : Bool :=
  match inv.max_uses with
  | none => false
  | some m => !(decide (m = 0)) && decide (m ≤ inv.uses_count)

/-- The `join_deck` route handler (`app/routes/teacher.py`, lines
254-316): resolve the code to an active invitation (404 otherwise),
reject expired invitations and exhausted use limits (400), then —
only then — check for an existing access record, returning
idempotently with `already_joined` if one exists and otherwise
creating the access, bumping `uses_count` and recording the student. -/
def join_deck (store : TeacherStore) (student : ℕ) (code : String) (now : ℤ) :
    Except ApiErr (TeacherStore × JoinDeckResponse) :=
  match store.invitations.find? (fun i => i.code == code && i.is_active) with
  | none => .error .notFound
  | some inv =>
    if invitationExpired inv now then .error .badRequest
    else if invitationLimitReached inv then .error .badRequest
    else
      match store.accesses.find?
          (fun a => a.student_id == student && a.deck_id == inv.deck_id) with
      | some _ => .ok (store, { deck_id := inv.deck_id, already_joined := true })
      | none =>
        let access : StudentDeckAccess :=
          { student_id := student
            deck_id := inv.deck_id
            teacher_id := inv.teacher_id
            invitation_code := code }
        let inv' : DeckInvitation :=
          { inv with
              uses_count := inv.uses_count + 1
              joined_students :=
                if student ∈ inv.joined_students then inv.joined_students
                else inv.joined_students ++ [student] }
        .ok ({ invitations := saveFirst store.invitations inv inv'
               accesses := store.accesses ++ [access] },
             { deck_id := inv.deck_id, already_joined := false })

/-- A live-session roster entry (`participants` in `LiveSession`,
`app/models.py`): the dict `{nickname, joined_at}` appended by
`join_session`. -/
structure Participant where
  nickname : String
  joined_at : ℤ
deriving DecidableEq, Repr

/-- The live-session fields read and written by the routes in
`app/routes/live.py` (`LiveSession` in `app/models.py`). -/
structure LiveSession where
  deck_id : ℕ
  teacher_id : ℕ
  session_code : String
  max_participants : ℤ
  status : String
  participants : List Participant
  started_at : Option ℤ
  completed_at : Option ℤ
deriving DecidableEq, Repr

/-- The `start_session` route handler (`app/routes/live.py`, lines
66-78): 404 when the session is missing or not owned by the caller;
otherwise the status is set to `"active"` and `started_at` stamped,
whatever the current status is. -/
def start_session (session : Option LiveSession) (caller : ℕ) (now : ℤ) :
    Except ApiErr LiveSession :=
  match session with
  | none => .error .notFound
  | some s =>
    if s.teacher_id ≠ caller then .error .notFound
    else .ok { s with status := "active", started_at := some now }

/-- The `finish_session` route handler (`app/routes/live.py`, lines
80-92): 404 when the session is missing or not owned by the caller;
otherwise the status is set to `"completed"` and `completed_at`
stamped, whatever the current status is. -/
def finish_session (session : Option LiveSession) (caller : ℕ) (now : ℤ) :
    Except ApiErr LiveSession :=
  match session with
  | none => .error .notFound
  | some s =>
    if s.teacher_id ≠ caller then .error .notFound
    else .ok { s with status := "completed", completed_at := some now }

/-- The `review_session` route handler (`app/routes/live.py`, lines
203-214): sets the status to `"review"` unconditionally for the owner. -/
def review_session (session : Option LiveSession) (caller : ℕ) :
    Except ApiErr LiveSession :=
  match session with
  | none => .error .notFound
  | some s =>
    if s.teacher_id ≠ caller then .error .notFound
    else .ok { s with status := "review" }

/-- Session resolution performed by `join_session` (`app/routes/live.py`,
lines 149-162): first a session with the code in `"waiting"` status,
falling back to one in `"active"` status (reconnect). -/
def findSessionByCode (sessions : List LiveSession) (code : String) : Option LiveSession :=
  match sessions.find? (fun s => s.session_code == code && s.status == "waiting") with
  | some s => some s
  | none => sessions.find? (fun s => s.session_code == code && s.status == "active")

/-- `any(p['nickname'] == request.nickname for p in session.participants)`
(`app/routes/live.py`, line 165). -/
def hasNickname (s : LiveSession) (nickname : String) : Bool :=
  s.participants.any (fun p => p.nickname == nickname)

/-- The `join_session` route handler (`app/routes/live.py`, lines
146-181), acting on the collection of live sessions: resolve the code
(waiting first, then active; 404 otherwise); a new nickname is
appended to the roster after a capacity check (400 when
`len(participants) >= max_participants`), while a nickname already in
the roster succeeds without saving anything. -/
def join_session (sessions : List LiveSession) (code nickname : String) (now : ℤ) :
    Except ApiErr (List LiveSession) :=
  match findSessionByCode sessions code with
  | none => .error .notFound
  | some s =>
    if !(hasNickname s nickname) then
      if s.max_participants ≤ (s.participants.length : ℤ) then .error .badRequest
      else
        .ok (saveFirst sessions s
          { s with participants := s.participants ++ [{ nickname := nickname, joined_at := now }] })
    else .ok sessions

/-- A card in `ContentItem.init` state after the streak
`is_learned := true, repetitions := 1, interval := 6`: reachable, e.g.
after passes in an `all_at_once` deck whose `learning_mode` is then
switched to `"spaced"` via `update_deck`. -/
def learnedMidStreakCard : ContentItem :=
  { ContentItem.init with is_new := false, is_learned := true, repetitions := 1, interval := 6 }

/-- A learned, non-new card whose next review instant has passed. -/
def learnedDueItem : ContentItem :=
  { ContentItem.init with is_new := false, is_learned := true, next_review := some 0 }

/-- A non-new, unlearned card that is unlocked but whose next review
lies in the future. -/
def unlockedFutureReviewItem : ContentItem :=
  { ContentItem.init with is_new := false, next_review := some 5 }

/-- A live session that has already been completed, owned by teacher 1. -/
def completedSessionC4 : LiveSession :=
  { deck_id := 0, teacher_id := 1, session_code := "123456", max_participants := 50,
    status := "completed", participants := [], started_at := some 0, completed_at := some 1 }

/-- A waiting live session whose roster, holding the single nickname
`"A"`, is already at `max_participants` capacity. -/
def sessionC9 : LiveSession :=
  { deck_id := 0, teacher_id := 1, session_code := "111111", max_participants := 1,
    status := "waiting", participants := [{ nickname := "A", joined_at := 0 }],
    started_at := none, completed_at := none }

/-- An invitation with `max_uses = 1` whose single use has been
consumed (by student 2 redeeming it). -/
def invC8 : DeckInvitation :=
  { deck_id := 0, teacher_id := 1, code := "12345678", uses_count := 1, max_uses := some 1,
    joined_students := [2], is_active := true, expires_at := none }

/-- The access record student 2 obtained from `invC8`. -/
def accC8 : StudentDeckAccess :=
  { student_id := 2, deck_id := 0, teacher_id := 1, invitation_code := "12345678" }

/-- Store state after student 2 redeemed `invC8`. -/
def storeC8 : TeacherStore := { invitations := [invC8], accesses := [accC8] }

/-- Like `invC8` but with no use limit. -/
def invC8ok : DeckInvitation :=
  { deck_id := 0, teacher_id := 1, code := "12345678", uses_count := 1, max_uses := none,
    joined_students := [2], is_active := true, expires_at := none }

/-- Store state after student 2 redeemed `invC8ok`. -/
def storeC8ok : TeacherStore := { invitations := [invC8ok], accesses := [accC8] }

/-- The ease factor after `answer_card` follows the pass formula for
`quality >= 3` and the fail formula otherwise. -/
lemma answer_card_ease (m : String) (c : ContentItem) (q now : ℤ) :
    (answer_card m c q now).ease_factor =
      if 3 ≤ q then
        max (13/10) (c.ease_factor +
          (1/10 - ((5 - q : ℤ) : ℚ) * (8/100 + ((5 - q : ℤ) : ℚ) * (2/100))))
      else max (13/10) (c.ease_factor - 2/10) := by
  simp only [answer_card]
  split_ifs <;> rfl

/-- The interval after `answer_card`, by branch. -/
lemma answer_card_interval (m : String) (c : ContentItem) (q now : ℤ) :
    (answer_card m c q now).interval =
      if 3 ≤ q then
        (if c.repetitions = 0 then 1
         else if c.repetitions = 1 then 6
         else pyRound ((c.interval : ℚ) * c.ease_factor))
      else 1 := by
  simp only [answer_card]
  split_ifs <;> rfl

/-- The repetition count after `answer_card`, by branch. -/
lemma answer_card_repetitions (m : String) (c : ContentItem) (q now : ℤ) :
    (answer_card m c q now).repetitions =
      if 3 ≤ q then c.repetitions + 1 else 0 := by
  simp only [answer_card]
  split_ifs <;> rfl

/-- `answer_card` increments `times_reviewed` unconditionally. -/
lemma answer_card_times_reviewed (m : String) (c : ContentItem) (q now : ℤ) :
    (answer_card m c q now).times_reviewed = c.times_reviewed + 1 := by
  simp only [answer_card]
  split_ifs <;> rfl

/-- `times_correct` after `answer_card`, by branch. -/
lemma answer_card_times_correct (m : String) (c : ContentItem) (q now : ℤ) :
    (answer_card m c q now).times_correct =
      if 3 ≤ q then c.times_correct + 1 else c.times_correct := by
  simp only [answer_card]
  split_ifs <;> rfl

/-- `times_incorrect` after `answer_card`, by branch. -/
lemma answer_card_times_incorrect (m : String) (c : ContentItem) (q now : ℤ) :
    (answer_card m c q now).times_incorrect =
      if 3 ≤ q then c.times_incorrect else c.times_incorrect + 1 := by
  simp only [answer_card]
  split_ifs <;> rfl

/-- The learned flag after `answer_card`, by branch: on a pass the
`spaced` path keeps the previous flag when the threshold is missed. -/
lemma answer_card_is_learned (m : String) (c : ContentItem) (q now : ℤ) :
    (answer_card m c q now).is_learned =
      if 3 ≤ q then
        (if m = "all_at_once" then true
         else if 3 ≤ c.repetitions + 1 ∧
               7 ≤ (if c.repetitions = 0 then 1
                    else if c.repetitions = 1 then 6
                    else pyRound ((c.interval : ℚ) * c.ease_factor)) then true
         else c.is_learned)
      else false := by
  simp only [answer_card]
  split_ifs <;> simp_all

/-- The difficulty after `answer_card`: recomputed from the updated
counters whenever the updated review count is positive. -/
lemma answer_card_difficulty (m : String) (c : ContentItem) (q now : ℤ) :
    (answer_card m c q now).difficulty =
      if 0 < c.times_reviewed + 1 then
        1 - (((if 3 ≤ q then c.times_correct + 1 else c.times_correct) : ℤ) : ℚ) /
            ((c.times_reviewed + 1 : ℤ) : ℚ)
      else c.difficulty := by
  simp only [answer_card]
  split_ifs <;> simp_all

/-- C1 (counterexample): the claim that `answer_card` rejects a quality
outside `[0,5]` with an `InvalidInput` error and leaves the card's
scheduling fields unchanged is false: with quality 6 the handler
succeeds and applies the SM-2 pass update to the default card — the
ease factor moves from 5/2 to 133/50 and `times_reviewed` from 0 to 1. -/
theorem answer_card_out_of_range_quality_accepted_cex :
    answer_card_route (some ContentItem.init) (some { learning_mode := "spaced" }) 6 0 =
      .ok (answer_card "spaced" ContentItem.init 6 0) ∧
    (answer_card "spaced" ContentItem.init 6 0).ease_factor = 133/50 ∧
    (answer_card "spaced" ContentItem.init 6 0).times_reviewed = 1 ∧
    ContentItem.init.ease_factor = 5/2 ∧
    ContentItem.init.times_reviewed = 0 := by
  refine ⟨rfl, ?_, ?_, rfl, rfl⟩
  · rw [answer_card_ease]
    norm_num [ContentItem.init]
  · rw [answer_card_times_reviewed]
    norm_num [ContentItem.init]

/-- C1 (amended): `answer_card` performs no range validation of the
quality value: once the card and its deck resolve, every integer
quality is accepted and the SM-2 update is applied — qualities `>= 3`
take the pass branch and the rest the fail branch, never an
`InvalidInput` rejection, and the card is always mutated
(`times_reviewed` grows by one). -/
theorem answer_card_no_quality_validation (c : ContentItem) (d : Deck) (q now : ℤ) :
    answer_card_route (some c) (some d) q now = .ok (answer_card d.learning_mode c q now) ∧
    (answer_card d.learning_mode c q now).times_reviewed = c.times_reviewed + 1 :=
  ⟨rfl, answer_card_times_reviewed d.learning_mode c q now⟩

/-- C2: for a card with ease factor at least 1.3, after `answer_card`
the ease factor is again at least 1.3, and it equals
`max(1.3, ef + (0.1 - (5-q)*(0.08 + (5-q)*0.02)))` on a pass
(`quality >= 3`) and `max(1.3, ef - 0.2)` on a fail. -/
theorem answer_card_ease_factor_floor (m : String) (c : ContentItem) (q now : ℤ)
    (h : (13:ℚ)/10 ≤ c.ease_factor) :
    (13:ℚ)/10 ≤ (answer_card m c q now).ease_factor ∧
    (answer_card m c q now).ease_factor =
      (if 3 ≤ q then
        max (13/10) (c.ease_factor +
          (1/10 - ((5 - q : ℤ) : ℚ) * (8/100 + ((5 - q : ℤ) : ℚ) * (2/100))))
      else max (13/10) (c.ease_factor - 2/10)) := by
  refine ⟨?_, answer_card_ease m c q now⟩
  rw [answer_card_ease]
  split_ifs <;> exact le_max_left _ _

/-- C2 (witness): `answer_card_ease_factor_floor` at the default card
and quality 5. -/
theorem answer_card_ease_factor_floor_witness :
    ((13:ℚ)/10 ≤ ContentItem.init.ease_factor) ∧
    ((13:ℚ)/10 ≤ (answer_card "spaced" ContentItem.init 5 0).ease_factor ∧
    (answer_card "spaced" ContentItem.init 5 0).ease_factor =
      (if 3 ≤ (5:ℤ) then
        max (13/10) (ContentItem.init.ease_factor +
          (1/10 - ((5 - 5 : ℤ) : ℚ) * (8/100 + ((5 - 5 : ℤ) : ℚ) * (2/100))))
      else max (13/10) (ContentItem.init.ease_factor - 2/10))) :=
  ⟨by norm_num [ContentItem.init],
   answer_card_ease_factor_floor "spaced" ContentItem.init 5 0 (by norm_num [ContentItem.init])⟩

/-- C3 (counterexample): the claim that after a pass in a `spaced` deck
the learned flag is true if and only if the updated repetitions reach 3
and the updated interval reaches 7 — false regardless of the previous
flag otherwise — fails: a card that is already learned with
`repetitions = 1, interval = 6` passes with quality 4, ends at
`repetitions = 2, interval = 6` (threshold missed), yet keeps
`is_learned = true`. -/
theorem answer_card_is_learned_retained_cex :
    (answer_card "spaced" learnedMidStreakCard 4 0).is_learned = true ∧
    (answer_card "spaced" learnedMidStreakCard 4 0).repetitions = 2 ∧
    (answer_card "spaced" learnedMidStreakCard 4 0).interval = 6 ∧
    ¬(3 ≤ (answer_card "spaced" learnedMidStreakCard 4 0).repetitions ∧
      7 ≤ (answer_card "spaced" learnedMidStreakCard 4 0).interval) := by
  refine ⟨?_, ?_, ?_, ?_⟩
  · rw [answer_card_is_learned]
    norm_num [learnedMidStreakCard, ContentItem.init]
  · rw [answer_card_repetitions]
    norm_num [learnedMidStreakCard, ContentItem.init]
  · rw [answer_card_interval]
    norm_num [learnedMidStreakCard, ContentItem.init]
  · rw [answer_card_repetitions, answer_card_interval]
    norm_num [learnedMidStreakCard, ContentItem.init]

/-- C3 (amended): for a passing answer (`quality >= 3`) in a `spaced`
deck, the learned flag after `answer_card` is true when the updated
repetitions reach 3 and the updated interval reaches 7, and otherwise
retains its previous value — it is not reset to false below the
threshold (only a failing answer resets it). -/
theorem answer_card_spaced_is_learned_update (c : ContentItem) (q now : ℤ) (h : 3 ≤ q) :
    (answer_card "spaced" c q now).is_learned =
      if 3 ≤ (answer_card "spaced" c q now).repetitions ∧
         7 ≤ (answer_card "spaced" c q now).interval then true
      else c.is_learned := by
  rw [answer_card_is_learned, answer_card_repetitions, answer_card_interval,
    if_pos h, if_pos h, if_pos h]
  rw [if_neg (by decide : ¬ ("spaced" : String) = "all_at_once")]

/-- C3 (witness): `answer_card_spaced_is_learned_update` at the default
card and quality 4. -/
theorem answer_card_spaced_is_learned_update_witness :
    ((3:ℤ) ≤ 4) ∧
    ((answer_card "spaced" ContentItem.init 4 0).is_learned =
      if 3 ≤ (answer_card "spaced" ContentItem.init 4 0).repetitions ∧
         7 ≤ (answer_card "spaced" ContentItem.init 4 0).interval then true
      else ContentItem.init.is_learned) :=
  ⟨by decide, answer_card_spaced_is_learned_update ContentItem.init 4 0 (by decide)⟩

/-- C4 (counterexample): the claim that a session's status only
advances along waiting → active → review → completed, with Start only
moving waiting → active, is false: `start_session` called by the
owning teacher on a completed session sets its status back to
`"active"`. -/
theorem start_session_reactivates_completed_cex :
    completedSessionC4.status = "completed" ∧
    start_session (some completedSessionC4) 1 2 =
      .ok { completedSessionC4 with status := "active", started_at := some 2 } :=
  ⟨rfl, rfl⟩

/-- C4 (amended): the live-session status transitions are not guarded
by the current status: for the owning teacher, `start_session` sets
the status to `"active"`, `finish_session` to `"completed"` and
`review_session` to `"review"` whatever the session's current status
is; in particular a completed session returns to active via Start. -/
theorem live_session_transitions_unguarded (s : LiveSession) (caller : ℕ) (now : ℤ)
    (h : s.teacher_id = caller) :
    start_session (some s) caller now =
      .ok { s with status := "active", started_at := some now } ∧
    finish_session (some s) caller now =
      .ok { s with status := "completed", completed_at := some now } ∧
    review_session (some s) caller = .ok { s with status := "review" } := by
  simp [start_session, finish_session, review_session, h]

/-- C4 (witness): `live_session_transitions_unguarded` at a completed
session owned by teacher 1. -/
theorem live_session_transitions_unguarded_witness :
    (completedSessionC4.teacher_id = 1) ∧
    (start_session (some completedSessionC4) 1 7 =
      .ok { completedSessionC4 with status := "active", started_at := some 7 } ∧
    finish_session (some completedSessionC4) 1 7 =
      .ok { completedSessionC4 with status := "completed", completed_at := some 7 } ∧
    review_session (some completedSessionC4) 1 =
      .ok { completedSessionC4 with status := "review" }) :=
  ⟨rfl, live_session_transitions_unguarded completedSessionC4 1 7 rfl⟩

/-- C5 (counterexample): the claim that the due counts used by the deck
listing and deck detail operations equal the number of items with
(`isNew && unlockDate <= now`) or
(`!isNew && !isLearned && nextReview <= now`) — so that a learned item
is never counted — is false: `get_my_decks` counts a learned, non-new
item whose next review has passed, and `get_deck` counts an unlocked,
unlearned item whose next review is still in the future. -/
theorem due_count_learned_item_counted_cex :
    learnedDueItem.is_learned = true ∧
    cards_due_my [learnedDueItem] 0 = 1 ∧
    due_spec [learnedDueItem] 0 = 0 ∧
    cards_due_detail [unlockedFutureReviewItem] 0 = 1 ∧
    due_spec [unlockedFutureReviewItem] 0 = 0 := by
  refine ⟨rfl, ?_, ?_, ?_, ?_⟩ <;>
    simp [cards_due_my, due_spec, cards_due_detail, countItems, nextReviewDue,
      learnedDueItem, unlockedFutureReviewItem, ContentItem.init]

/-- C5 (amended): the due count used by `get_my_decks` (and identically
by `get_my_teachers_decks`) equals the number of items with
(`isNew && unlockDate <= now`) or (`!isNew && nextReview <= now`) —
without the `isLearned` filter, so it exceeds the spec's count by
exactly the learned non-new items whose next review has passed —
while `get_deck` instead counts items with
`unlockDate <= now && !isLearned`. -/
theorem due_count_characterization (items : List ContentItem) (now : ℤ) :
    cards_due_my items now =
      countItems items (fun c =>
        (c.is_new && decide (c.unlock_date ≤ now)) || (!c.is_new && nextReviewDue c now)) ∧
    cards_due_my items now =
      due_spec items now +
        countItems items (fun c => !c.is_new && c.is_learned && nextReviewDue c now) ∧
    cards_due_teacher items now = cards_due_my items now ∧
    cards_due_detail items now =
      countItems items (fun c => decide (c.unlock_date ≤ now) && !c.is_learned) := by
  refine ⟨?_, ?_, rfl, rfl⟩
  · induction items with
    | nil => rfl
    | cons c cs ih =>
      simp only [cards_due_my, countItems, List.filter_cons] at *
      cases hn : c.is_new <;> cases hu : decide (c.unlock_date ≤ now) <;>
        cases hr : nextReviewDue c now <;> simp [hn, hu, hr] <;> omega
  · induction items with
    | nil => rfl
    | cons c cs ih =>
      simp only [cards_due_my, due_spec, countItems, List.filter_cons] at *
      cases hn : c.is_new <;> cases hl : c.is_learned <;>
        cases hu : decide (c.unlock_date ≤ now) <;>
        cases hr : nextReviewDue c now <;> simp [hn, hl, hu, hr] <;> omega

/-- C6 (counterexample): the claim that the deck detail operation
follows the ordered status rule independently of the learning mode is
false: with one card, none learned and none due, `get_deck` reports
"done_for_today" for a spaced deck where the rule gives "active", and
with two cards, one learned and none due, it reports "active" for an
all_at_once deck where the rule gives "done_for_today". -/
theorem deck_status_detail_mode_dependent_cex :
    deck_status_detail "spaced" 1 0 0 = "done_for_today" ∧
    compute_status_spec 1 0 0 = "active" ∧
    deck_status_detail "all_at_once" 2 1 0 = "active" ∧
    compute_status_spec 2 1 0 = "done_for_today" := by decide

/-- C6 (amended): the deck listing operations (`get_my_decks` and
`get_my_teachers_decks`) compute the status by the spec's ordered rule
for every snapshot of counts; the deck detail operation (`get_deck`)
agrees with that rule exactly when the deck is empty, fully learned,
has something due, or its learning mode matches the learned count
(`learned > 0` iff the mode is `"spaced"`) — so its status does depend
on the learning mode. -/
theorem deck_status_rule_characterization (m : String) (total learned due : ℕ) :
    deck_status_my total learned due = compute_status_spec total learned due ∧
    deck_status_teacher total learned due = compute_status_spec total learned due ∧
    (deck_status_detail m total learned due = compute_status_spec total learned due ↔
      total = 0 ∨ learned = total ∨ due ≠ 0 ∨ (0 < learned ↔ m = "spaced")) := by
  refine ⟨rfl, rfl, ?_⟩
  unfold deck_status_detail compute_status_spec
  split_ifs <;> simp_all <;> omega

/-- C7: for a passing answer (`quality >= 3`), the interval after
`answer_card` is 1 when the prior repetitions count is 0, 6 when it is
1, and otherwise the Python rounding of prior interval times prior
ease factor — the ease factor before this call's update, since the
source updates the interval first. -/
theorem answer_card_interval_progression (m : String) (c : ContentItem) (q now : ℤ)
    (h : 3 ≤ q) :
    (answer_card m c q now).interval =
      if c.repetitions = 0 then 1
      else if c.repetitions = 1 then 6
      else pyRound ((c.interval : ℚ) * c.ease_factor) := by
  rw [answer_card_interval, if_pos h]

/-- C7 (witness): `answer_card_interval_progression` at the default
card and quality 4. -/
theorem answer_card_interval_progression_witness :
    ((3:ℤ) ≤ 4) ∧
    ((answer_card "spaced" ContentItem.init 4 0).interval =
      if ContentItem.init.repetitions = 0 then 1
      else if ContentItem.init.repetitions = 1 then 6
      else pyRound ((ContentItem.init.interval : ℚ) * ContentItem.init.ease_factor)) :=
  ⟨by decide, answer_card_interval_progression "spaced" ContentItem.init 4 0 (by decide)⟩

/-- C8 (counterexample): the claim that a student who already holds a
StudentDeckAccess record for the invitation's deck always redeems
successfully with `already_joined = true` is false: the use-limit
check runs before the already-joined check, so after student 2 has
consumed the single use of an invitation with `max_uses = 1`, their
repeat redemption fails with the limit error instead of succeeding
idempotently. -/
theorem join_deck_limit_precedes_idempotency_cex :
    storeC8.accesses.find? (fun a => a.student_id == 2 && a.deck_id == invC8.deck_id) =
      some accC8 ∧
    join_deck storeC8 2 "12345678" 0 = .error .badRequest :=
  ⟨rfl, rfl⟩

/-- C8 (amended): when the code resolves to an active invitation that
is neither expired nor at its use limit, a student whose access record
for the invitation's deck already exists redeems successfully with
`already_joined = true` and the store is unchanged — no access record
is created, `uses_count` is not incremented and `joined_students` is
untouched, so under these checks a repeat redemption has the same
store effect as the first; but a repeat redemption whose earlier
expiry or limit check fails is rejected with an error instead. -/
theorem join_deck_idempotent_under_checks (store : TeacherStore) (student : ℕ)
    (code : String) (now : ℤ) (inv : DeckInvitation) (a : StudentDeckAccess)
    (hfind : store.invitations.find? (fun i => i.code == code && i.is_active) = some inv)
    (hexp : invitationExpired inv now = false)
    (hlim : invitationLimitReached inv = false)
    (hacc : store.accesses.find?
      (fun x => x.student_id == student && x.deck_id == inv.deck_id) = some a) :
    join_deck store student code now =
      .ok (store, { deck_id := inv.deck_id, already_joined := true }) := by
  simp [join_deck, hfind, hexp, hlim, hacc]

/-- C8 (witness): `join_deck_idempotent_under_checks` at a store where
student 2 already redeemed an unlimited invitation. -/
theorem join_deck_idempotent_under_checks_witness :
    (storeC8ok.invitations.find? (fun i => i.code == "12345678" && i.is_active) = some invC8ok ∧
     invitationExpired invC8ok 0 = false ∧
     invitationLimitReached invC8ok = false ∧
     storeC8ok.accesses.find?
       (fun x => x.student_id == 2 && x.deck_id == invC8ok.deck_id) = some accC8) ∧
    join_deck storeC8ok 2 "12345678" 0 =
      .ok (storeC8ok, { deck_id := invC8ok.deck_id, already_joined := true }) :=
  ⟨⟨rfl, rfl, rfl, rfl⟩, join_deck_idempotent_under_checks storeC8ok 2 "12345678" 0
    invC8ok accC8 rfl rfl rfl rfl⟩

/-- C9: when `join_session` resolves a code to a session (necessarily
in waiting or active status) whose roster already holds the nickname,
it succeeds and leaves the session collection — in particular the
participants list — unchanged, with no capacity condition: joining
twice with the same nickname equals joining once even at
`max_participants` capacity. -/
theorem join_session_idempotent_reconnect (sessions : List LiveSession)
    (code nickname : String) (now : ℤ) (s : LiveSession)
    (hfind : findSessionByCode sessions code = some s)
    (hnick : hasNickname s nickname = true) :
    join_session sessions code nickname now = .ok sessions ∧
    (s.status = "waiting" ∨ s.status = "active") := by
  constructor
  · simp [join_session, hfind, hnick]
  · unfold findSessionByCode at hfind
    cases hw : sessions.find? (fun t => t.session_code == code && t.status == "waiting") with
    | some t =>
      rw [hw] at hfind
      simp only [Option.some.injEq] at hfind
      subst hfind
      have hp := List.find?_some hw
      simp only [Bool.and_eq_true, beq_iff_eq] at hp
      exact Or.inl hp.2
    | none =>
      rw [hw] at hfind
      simp only at hfind
      have hp := List.find?_some hfind
      simp only [Bool.and_eq_true, beq_iff_eq] at hp
      exact Or.inr hp.2

/-- C9 (witness): `join_session_idempotent_reconnect` at a waiting
session whose roster, already at capacity, holds the nickname "A". -/
theorem join_session_idempotent_reconnect_witness :
    (findSessionByCode [sessionC9] "111111" = some sessionC9 ∧
     hasNickname sessionC9 "A" = true) ∧
    (join_session [sessionC9] "111111" "A" 5 = .ok [sessionC9] ∧
     (sessionC9.status = "waiting" ∨ sessionC9.status = "active")) :=
  ⟨⟨rfl, rfl⟩, join_session_idempotent_reconnect [sessionC9] "111111" "A" 5 sessionC9 rfl rfl⟩

/-- C10: `answer_card` increments `times_reviewed` by exactly one and
exactly one of `times_correct` (pass) or `times_incorrect` (fail); it
therefore preserves the invariant
`times_correct + times_incorrect = times_reviewed`, and for a card
satisfying it with non-negative counters the recomputed difficulty
`1 - times_correct/times_reviewed` lies in `[0,1]`. -/
theorem answer_card_counter_invariant (m : String) (c : ContentItem) (q now : ℤ)
    (hsum : c.times_correct + c.times_incorrect = c.times_reviewed)
    (hc : 0 ≤ c.times_correct) (hi : 0 ≤ c.times_incorrect) :
    (answer_card m c q now).times_reviewed = c.times_reviewed + 1 ∧
    (3 ≤ q → (answer_card m c q now).times_correct = c.times_correct + 1 ∧
             (answer_card m c q now).times_incorrect = c.times_incorrect) ∧
    (q < 3 → (answer_card m c q now).times_correct = c.times_correct ∧
             (answer_card m c q now).times_incorrect = c.times_incorrect + 1) ∧
    (answer_card m c q now).times_correct + (answer_card m c q now).times_incorrect =
      (answer_card m c q now).times_reviewed ∧
    0 ≤ (answer_card m c q now).difficulty ∧ (answer_card m c q now).difficulty ≤ 1 := by
  have htr : (0:ℤ) < c.times_reviewed + 1 := by omega
  refine ⟨answer_card_times_reviewed m c q now, ?_, ?_, ?_, ?_, ?_⟩
  · intro h
    rw [answer_card_times_correct, answer_card_times_incorrect, if_pos h, if_pos h]
    exact ⟨rfl, rfl⟩
  · intro h
    rw [answer_card_times_correct, answer_card_times_incorrect,
      if_neg (by omega : ¬ 3 ≤ q), if_neg (by omega : ¬ 3 ≤ q)]
    exact ⟨rfl, rfl⟩
  · rw [answer_card_times_correct, answer_card_times_incorrect, answer_card_times_reviewed]
    split_ifs <;> omega
  · rw [answer_card_difficulty, if_pos htr]
    have hden : (0:ℚ) < ((c.times_reviewed + 1 : ℤ) : ℚ) := by exact_mod_cast htr
    have hnum : ((if 3 ≤ q then c.times_correct + 1 else c.times_correct : ℤ) : ℚ) ≤
        ((c.times_reviewed + 1 : ℤ) : ℚ) := by
      have hz : (if 3 ≤ q then c.times_correct + 1 else c.times_correct : ℤ) ≤
          c.times_reviewed + 1 := by split_ifs <;> omega
      exact_mod_cast hz
    have hd := div_le_one_of_le₀ hnum hden.le
    linarith
  · rw [answer_card_difficulty, if_pos htr]
    have hden : (0:ℚ) < ((c.times_reviewed + 1 : ℤ) : ℚ) := by exact_mod_cast htr
    have hnum : (0:ℚ) ≤ ((if 3 ≤ q then c.times_correct + 1 else c.times_correct : ℤ) : ℚ) := by
      have hz : (0:ℤ) ≤ (if 3 ≤ q then c.times_correct + 1 else c.times_correct : ℤ) := by
        split_ifs <;> omega
      exact_mod_cast hz
    have hd := div_nonneg hnum hden.le
    linarith

/-- C10 (witness): `answer_card_counter_invariant` at the default card
and quality 5. -/
theorem answer_card_counter_invariant_witness :
    (ContentItem.init.times_correct + ContentItem.init.times_incorrect =
       ContentItem.init.times_reviewed ∧
     (0:ℤ) ≤ ContentItem.init.times_correct ∧ (0:ℤ) ≤ ContentItem.init.times_incorrect) ∧
    ((answer_card "spaced" ContentItem.init 5 0).times_reviewed =
       ContentItem.init.times_reviewed + 1 ∧
    (3 ≤ (5:ℤ) → (answer_card "spaced" ContentItem.init 5 0).times_correct =
           ContentItem.init.times_correct + 1 ∧
         (answer_card "spaced" ContentItem.init 5 0).times_incorrect =
           ContentItem.init.times_incorrect) ∧
    ((5:ℤ) < 3 → (answer_card "spaced" ContentItem.init 5 0).times_correct =
           ContentItem.init.times_correct ∧
         (answer_card "spaced" ContentItem.init 5 0).times_incorrect =
           ContentItem.init.times_incorrect + 1) ∧
    (answer_card "spaced" ContentItem.init 5 0).times_correct +
        (answer_card "spaced" ContentItem.init 5 0).times_incorrect =
      (answer_card "spaced" ContentItem.init 5 0).times_reviewed ∧
    0 ≤ (answer_card "spaced" ContentItem.init 5 0).difficulty ∧
    (answer_card "spaced" ContentItem.init 5 0).difficulty ≤ 1) :=
  ⟨⟨rfl, by decide, by decide⟩,
   answer_card_counter_invariant "spaced" ContentItem.init 5 0 rfl (by decide) (by decide)⟩
